import Mathlib

/-!
Shallow embedding of `src/hrds/hrds.py` (class `HRDS`): raster-stack
construction, band selection, and the layered point-query blend.

Numeric raster values are modelled as exact rationals; the Python float
comparison `b.get_val(point) == 1.0` becomes exact equality with `1`.
The collaborators `RasterInterpolator` (src/hrds/raster.py) and
`CreateBuffer` (src/hrds/raster_buffer.py) are not among the sources; they
are modelled from the spec at their interface boundary (spec sections 4.1
and 6): loading a raster file yields a sampler with a point-containment
test, per-band value sampling, band selection, and an optional value clamp.
In the embedding a raster file is identified with its unclamped sampler,
and the buffer generator is an abstract function parameter, universally
quantified in the construction theorems.
-/

/-- A planar query point (x, y). -/
abbrev Point : Type := ℚ × ℚ

/-- One (min, max) clamp entry; either bound may be absent. -/
abbrev MinMax : Type := Option ℚ × Option ℚ

/-- Modelled from the spec (section 6): a loaded raster sampler, the
interface of the collaborator `RasterInterpolator` from the missing file
src/hrds/raster.py.  It exposes a point-containment test (`point_in`),
per-band sampling, and the currently selected band; the listed interface
is load, select_band, contains, sample, and nothing else. -/
structure RasterInterpolator where
  point_in : Point → Bool
  band : Nat
  sample : Nat → Point → ℚ

instance : Inhabited RasterInterpolator :=
  ⟨⟨fun _ => false, 1, fun _ _ => 0⟩⟩

/-- Modelled from the spec (section 6): sampling reads the selected band. -/
def RasterInterpolator.get_val (r : RasterInterpolator) (p : Point) : ℚ :=
  r.sample r.band p

/-- Modelled from the spec (section 6): `select_band` picks the active band;
band 1 is the first (default) band. -/
def RasterInterpolator.set_band (r : RasterInterpolator) (b : Nat) : RasterInterpolator :=
  { r with band := b }

/-- Modelled from the spec (section 6): the optional (min, max) clamp is
applied to every sampled value, either bound nullable. -/
def clampMinMax (mm : MinMax) (v : ℚ) : ℚ :=
  let lo := match mm.1 with
    | none => v
    | some a => max a v
  match mm.2 with
  | none => lo
  | some b => min b lo

/-- Modelled from the spec (sections 4.1 and 6): `RasterInterpolator(file)`
wraps a raster file as a sampler; with a minmax entry it additionally clamps
every sampled value. -/
def RasterInterpolator.load (r : RasterInterpolator) (mm : Option MinMax) : RasterInterpolator :=
  match mm with
  | none => r
  | some q => { r with sample := fun b p => clampMinMax q (r.sample b p) }

/-- Python-level failures surfaced by the embedded methods:
`HRDSError` (src/hrds/hrds.py line 31) plus the builtin TypeError and
AttributeError exceptions. -/
inductive PyError where
  | hrdsError (msg : String)
  | typeError (msg : String)
  | attributeError (msg : String)

/-- The HRDS raster stack state: the base raster plus the internally
reversed raster and buffer stacks (src/hrds/hrds.py lines 114-153). -/
structure HRDS where
  baseRaster : RasterInterpolator
  raster_stack : List RasterInterpolator
  buffer_stack : List RasterInterpolator

instance : Inhabited HRDS :=
  ⟨⟨default, [], []⟩⟩

/-- The loop of `HRDS.get_val` (src/hrds/hrds.py lines 201-219): walk the
zipped raster/buffer stacks with the running index `i`; at the first
containing layer either return its value (buffer exactly 1) or blend with
the first containing raster among `raster_stack[i+1:]`, falling back to the
base raster.  `full` is the whole `self.raster_stack`, used for the
lookahead slice. -/
def HRDS.get_val_go (base : RasterInterpolator) (full : List RasterInterpolator)
    (p : Point) : Nat → List (RasterInterpolator × RasterInterpolator) → ℚ
  | _, [] => base.get_val p
  | i, (r, b) :: rest =>
    if r.point_in p then
      if b.get_val p = 1 then r.get_val p
      else
        match (full.drop (i + 1)).find? (fun rr => rr.point_in p) with
        | some rr => r.get_val p * b.get_val p + rr.get_val p * (1 - b.get_val p)
        | none => r.get_val p * b.get_val p + base.get_val p * (1 - b.get_val p)
    else HRDS.get_val_go base full p (i + 1) rest

/-- `HRDS.get_val` (src/hrds/hrds.py lines 183-222): scan
`zip(range(0, len(raster_stack)+1), raster_stack, buffer_stack)` for the
first containing layer and resolve it; if no layer contains the point,
return the base raster's value. -/
def HRDS.get_val (h : HRDS) (p : Point) : ℚ :=
  HRDS.get_val_go h.baseRaster h.raster_stack p 0 (h.raster_stack.zip h.buffer_stack)

/-- `HRDS.set_bands` (src/hrds/hrds.py lines 155-181).  With `bands=None`
the default (first) band is selected on the base raster and on every stack
entry.  With an explicit band list the first executed statement is
`self.baseRaster.bands(bands[0])` (src line 174); modelled from the spec
(section 6), the sampler interface has no operation named `bands` (its band
selector is `set_band`, the one used by the None branch and by both loops),
so this attribute access raises AttributeError and the two counter loops
are never reached. -/
def HRDS.set_bands (h : HRDS) (bands : Option (List Nat)) : Except PyError HRDS :=
  match bands with
  | none =>
    Except.ok
      { baseRaster := h.baseRaster.set_band 1,
        raster_stack := h.raster_stack.map (fun r => r.set_band 1),
        buffer_stack := h.buffer_stack.map (fun r => r.set_band 1) }
  | some _ =>
    Except.error
      (PyError.attributeError ("RasterInterpolator object has no attribute bands"))

/-- State-passing embedding of the method call `hrds.get_val(point)`.
The body (src/hrds/hrds.py lines 199-222) assigns to no attribute of
`self`; it only calls `point_in` and `get_val` on the stored samplers,
which the spec (section 5) fixes to be pure reads of already-loaded data.
The method therefore returns its receiver unchanged next to the value. -/
def HRDS.get_val_method (h : HRDS) (p : Point) : ℚ × HRDS :=
  (HRDS.get_val h p, h)

/-- Error text of src/hrds/hrds.py lines 98-100 (buffers count mismatch). -/
def bufferCountMsg (nr nb : Nat) : String :=
  "You have " ++ toString nr ++ "rasters and " ++ toString nb ++
    "buffers. They should match"

/-- Error text of src/hrds/hrds.py lines 103-105 (distances count mismatch). -/
def distanceCountMsg (nr nd : Nat) : String :=
  "You have " ++ toString nr ++ "rasters and " ++ toString nd ++
    "distances. They should match"

/-- Error text of src/hrds/hrds.py lines 109-112 (minmax count mismatch). -/
def minmaxCountMsg (nmm nneed : Nat) : String :=
  "Please supply same number of minmax values" ++
    "as the total number of rasters, inc. base." ++
    "You gave me: " ++ toString nmm ++ " min/max" ++
    "and I expected: " ++ toString nneed

/-- The refinement rasters as loaded in input (ascending-priority) order,
raster `i` with clamp `minmax[i+1]` when minmax is given
(src/hrds/hrds.py lines 118-123), before the final reversal. -/
def origRasterStack (interp : RasterInterpolator → Option MinMax → RasterInterpolator)
    (rasters : List RasterInterpolator) (minmax : Option (List MinMax)) :
    List RasterInterpolator :=
  rasters.enum.map (fun ir =>
    match minmax with
    | none => interp ir.2 none
    | some mm => interp ir.2 (some (mm.getD (ir.1 + 1) (none, none))))

/-- The buffer samplers in input order, before the final reversal: loaded
from the `buffers` files when those are given (src/hrds/hrds.py lines
146-149), otherwise generated from each (raster, distance) pair
(lines 126-141). -/
def origBufferStack (interp : RasterInterpolator → Option MinMax → RasterInterpolator)
    (gen : RasterInterpolator → ℚ → RasterInterpolator)
    (rasters : List RasterInterpolator) (distances : Option (List ℚ))
    (buffers : Option (List RasterInterpolator)) : List RasterInterpolator :=
  match buffers with
  | some bs => bs.map (fun b => interp b none)
  | none => (rasters.zip (distances.getD [])).map (fun rd => gen rd.1 rd.2)

/-- The base raster as loaded, with clamp `minmax[0]` when minmax is given
(src/hrds/hrds.py lines 114-117). -/
def loadBase (interp : RasterInterpolator → Option MinMax → RasterInterpolator)
    (baseRaster : RasterInterpolator) (minmax : Option (List MinMax)) :
    RasterInterpolator :=
  match minmax with
  | none => interp baseRaster none
  | some mm => interp baseRaster (some (mm.getD 0 (none, none)))

/-- The stack state built by `HRDS.__init__` after all checks pass: load
everything in input order, then reverse both stacks
(src/hrds/hrds.py lines 114-153). -/
def buildStack (interp : RasterInterpolator → Option MinMax → RasterInterpolator)
    (gen : RasterInterpolator → ℚ → RasterInterpolator)
    (baseRaster : RasterInterpolator) (rasters : List RasterInterpolator)
    (distances : Option (List ℚ)) (buffers : Option (List RasterInterpolator))
    (minmax : Option (List MinMax)) : HRDS :=
  { baseRaster := loadBase interp baseRaster minmax,
    raster_stack := (origRasterStack interp rasters minmax).reverse,
    buffer_stack := (origBufferStack interp gen rasters distances buffers).reverse }

/-- The minmax count check of src/hrds/hrds.py lines 107-112. -/
def checkMinmax (nr : Nat) (minmax : Option (List MinMax)) : Option PyError :=
  match minmax with
  | none => none
  | some mm =>
    if nr + 1 = mm.length then none
    else some (PyError.hrdsError (minmaxCountMsg mm.length (nr + 1)))

/-- `HRDS.__init__` (src/hrds/hrds.py lines 85-153).  With `distances=None`
the code compares `len(rasters)` against `len(buffers)` — a TypeError when
`buffers` is also None; with `distances` given it compares against
`len(distances)` only.  After the count checks it loads the base and the
refinement rasters and then, solely keyed on `buffers is None`
(line 126), either generates buffers from the (raster, distance) pairs or
loads the given buffer files; finally both stacks are reversed.  `interp`
and `gen` stand for the file-loading collaborators (RasterInterpolator and
CreateBuffer.make_buffer), abstract here. -/
def HRDS.init (interp : RasterInterpolator → Option MinMax → RasterInterpolator)
    (gen : RasterInterpolator → ℚ → RasterInterpolator)
    (baseRaster : RasterInterpolator) (rasters : List RasterInterpolator)
    (distances : Option (List ℚ)) (buffers : Option (List RasterInterpolator))
    (minmax : Option (List MinMax)) : Except PyError HRDS :=
  match distances, buffers with
  | none, none =>
    Except.error (PyError.typeError ("object of type NoneType has no len()"))
  | none, some bs =>
    if rasters.length = bs.length then
      match checkMinmax rasters.length minmax with
      | some e => Except.error e
      | none => Except.ok (buildStack interp gen baseRaster rasters none (some bs) minmax)
    else
      Except.error (PyError.hrdsError (bufferCountMsg rasters.length bs.length))
  | some ds, obuf =>
    if rasters.length = ds.length then
      match checkMinmax rasters.length minmax with
      | some e => Except.error e
      | none => Except.ok (buildStack interp gen baseRaster rasters (some ds) obuf minmax)
    else
      Except.error (PyError.hrdsError (distanceCountMsg rasters.length ds.length))

/-- Resolution of the first containing layer `rb` at absolute stack index
`i` (src/hrds/hrds.py lines 204-219): return its raw value when its buffer
reads exactly 1, otherwise blend with the first containing raster after
index `i`, or with the base raster when there is none. -/
def layerResolve (base : RasterInterpolator) (full : List RasterInterpolator)
    (p : Point) (i : Nat) (rb : RasterInterpolator × RasterInterpolator) : ℚ :=
  if rb.2.get_val p = 1 then rb.1.get_val p
  else
    match (full.drop (i + 1)).find? (fun rr => rr.point_in p) with
    | some rr => rb.1.get_val p * rb.2.get_val p + rr.get_val p * (1 - rb.2.get_val p)
    | none => rb.1.get_val p * rb.2.get_val p + base.get_val p * (1 - rb.2.get_val p)

/-- The blend partner chosen at src/hrds/hrds.py lines 209-218: the first
containing raster after index `i`, the base raster when none contains. -/
def blendPartner (h : HRDS) (i : Nat) (p : Point) : RasterInterpolator :=
  match (h.raster_stack.drop (i + 1)).find? (fun rr => rr.point_in p) with
  | some rr => rr
  | none => h.baseRaster

/-- A concrete sampler covering everything (or nothing) with one constant
value on every band; used to instantiate closed-form results. -/
def mkLayer (inside : Bool) (v : ℚ) : RasterInterpolator :=
  { point_in := fun _ => inside, band := 1, sample := fun _ _ => v }

/-- A concrete buffer generator for closed-form results: the generated
buffer covers everything and reads the falloff distance as its value. -/
def genConst (r : RasterInterpolator) (d : ℚ) : RasterInterpolator :=
  { point_in := fun _ => true, band := r.band, sample := fun _ _ => d }

/-- The query point used in closed-form results. -/
def ptW : Point := (0, 0)

/-- If the head layer does not contain the point, the loop moves on with the
index advanced by one. -/
theorem get_val_go_skip (base : RasterInterpolator) (full : List RasterInterpolator)
    (p : Point) (k : Nat) (r b : RasterInterpolator)
    (rest : List (RasterInterpolator × RasterInterpolator))
    (h0 : r.point_in p = false) :
    HRDS.get_val_go base full p k ((r, b) :: rest) =
      HRDS.get_val_go base full p (k + 1) rest := by
  simp [HRDS.get_val_go, h0]

/-- The loop started at running index `k` resolves the first containing pair:
if position `i` of the remaining pairs is the first whose raster contains the
point, the result is that pair's resolution at absolute index `k + i`. -/
theorem get_val_go_first (base : RasterInterpolator) (full : List RasterInterpolator)
    (p : Point) :
    ∀ (pairs : List (RasterInterpolator × RasterInterpolator)) (k i : Nat)
      (hi : i < pairs.length),
      pairs[i].1.point_in p = true →
      (∀ j (hj : j < i), pairs[j].1.point_in p = false) →
      HRDS.get_val_go base full p k pairs = layerResolve base full p (k + i) pairs[i]
  | (r, b) :: rest, k, 0, hi, hc, _ => by
    simp only [List.getElem_cons_zero] at hc ⊢
    simp [HRDS.get_val_go, layerResolve, hc]
  | (r, b) :: rest, k, n + 1, hi, hc, hf => by
    have h0 : r.point_in p = false := by
      have := hf 0 (Nat.succ_pos n)
      simpa using this
    rw [get_val_go_skip base full p k r b rest h0]
    have hi' : n < rest.length := by simpa using hi
    have ih := get_val_go_first base full p rest (k + 1) n hi'
      (by simpa using hc)
      (fun j hj => by simpa using hf (j + 1) (Nat.succ_lt_succ hj))
    rw [ih]
    have : k + 1 + n = k + (n + 1) := by omega
    rw [this]
    simp

/-- If no pair's raster contains the point, the loop falls through to the
base raster. -/
theorem get_val_go_none (base : RasterInterpolator) (full : List RasterInterpolator)
    (p : Point) :
    ∀ (pairs : List (RasterInterpolator × RasterInterpolator)) (k : Nat),
      (∀ rb ∈ pairs, rb.1.point_in p = false) →
      HRDS.get_val_go base full p k pairs = base.get_val p
  | [], _, _ => rfl
  | (r, b) :: rest, k, hall => by
    have h0 : r.point_in p = false := hall (r, b) (List.mem_cons_self _ _)
    rw [get_val_go_skip base full p k r b rest h0]
    exact get_val_go_none base full p rest (k + 1)
      (fun rb hrb => hall rb (List.mem_cons_of_mem _ hrb))

/-- `get_val` at a point whose first containing layer sits at stack index
`i` equals that layer's resolution (src/hrds/hrds.py lines 201-219). -/
theorem get_val_first_layer (h : HRDS) (p : Point) (i : Nat)
    (hi : i < h.raster_stack.length) (hib : i < h.buffer_stack.length)
    (hc : h.raster_stack[i].point_in p = true)
    (hf : ∀ j (hj : j < i), h.raster_stack[j].point_in p = false) :
    h.get_val p =
      layerResolve h.baseRaster h.raster_stack p i
        (h.raster_stack[i], h.buffer_stack[i]) := by
  have hiz : i < (h.raster_stack.zip h.buffer_stack).length := by
    rw [List.length_zip]
    omega
  have main := get_val_go_first h.baseRaster h.raster_stack p
    (h.raster_stack.zip h.buffer_stack) 0 i hiz
    (by rw [List.getElem_zip]; exact hc)
    (fun j hj => by rw [List.getElem_zip]; exact hf j hj)
  rw [HRDS.get_val, main, List.getElem_zip]
  simp

/-- C2: for every query point, if the first containing layer's buffer value
equals exactly 1.0, `get_val` returns that layer's raster value unmodified,
whatever the lower-priority layers and the base raster hold
(src/hrds/hrds.py lines 204-207). -/
theorem getval_buffer_one_returns_layer_value (h : HRDS) (p : Point) (i : Nat)
    (hi : i < h.raster_stack.length) (hib : i < h.buffer_stack.length)
    (hc : h.raster_stack[i].point_in p = true)
    (hf : ∀ j (hj : j < i), h.raster_stack[j].point_in p = false)
    (hb : h.buffer_stack[i].get_val p = 1) :
    h.get_val p = h.raster_stack[i].get_val p := by
  rw [get_val_first_layer h p i hi hib hc hf]
  simp [layerResolve, hb]

/-- C1: if the first containing layer `i` has buffer value strictly between
0 and 1 and some layer after `i` also contains the point, `get_val` returns
`v_i * w + v_next * (1 - w)` with `v_next` the value of the first such
containing layer (src/hrds/hrds.py lines 201-214). -/
theorem getval_blends_with_next_containing_layer (h : HRDS) (p : Point) (i : Nat)
    (rr : RasterInterpolator)
    (hi : i < h.raster_stack.length) (hib : i < h.buffer_stack.length)
    (hc : h.raster_stack[i].point_in p = true)
    (hf : ∀ j (hj : j < i), h.raster_stack[j].point_in p = false)
    (hw0 : 0 < h.buffer_stack[i].get_val p)
    (hw1 : h.buffer_stack[i].get_val p < 1)
    (hnext : (h.raster_stack.drop (i + 1)).find? (fun r' => r'.point_in p) = some rr) :
    h.get_val p =
      h.raster_stack[i].get_val p * h.buffer_stack[i].get_val p +
        rr.get_val p * (1 - h.buffer_stack[i].get_val p) := by
  rw [get_val_first_layer h p i hi hib hc hf]
  rw [layerResolve, if_neg (ne_of_lt hw1), hnext]

/-- C3: if layer `i` is the only containing layer and its buffer value is
not exactly 1.0, `get_val` blends it against the base raster
(src/hrds/hrds.py lines 215-219). -/
theorem getval_sole_layer_blends_with_base (h : HRDS) (p : Point) (i : Nat)
    (hi : i < h.raster_stack.length) (hib : i < h.buffer_stack.length)
    (hc : h.raster_stack[i].point_in p = true)
    (honly : ∀ j (hj : j < h.raster_stack.length), j ≠ i →
      h.raster_stack[j].point_in p = false)
    (hw : h.buffer_stack[i].get_val p ≠ 1) :
    h.get_val p =
      h.raster_stack[i].get_val p * h.buffer_stack[i].get_val p +
        h.baseRaster.get_val p * (1 - h.buffer_stack[i].get_val p) := by
  have hf : ∀ j (hj : j < i), h.raster_stack[j].point_in p = false :=
    fun j hj => honly j (Nat.lt_trans hj hi) (Nat.ne_of_lt hj)
  rw [get_val_first_layer h p i hi hib hc hf]
  have hnone : (h.raster_stack.drop (i + 1)).find? (fun r' => r'.point_in p) = none := by
    rw [List.find?_eq_none]
    intro x hx
    obtain ⟨j, hj, hxe⟩ := List.getElem_of_mem hx
    rw [List.getElem_drop] at hxe
    have hjlt : i + 1 + j < h.raster_stack.length := by
      have := hj
      simp [List.length_drop] at this
      omega
    have := honly (i + 1 + j) hjlt (by omega)
    rw [hxe] at this
    simp [this]
  rw [layerResolve, if_neg hw, hnone]

/-- C7: a point contained by no layer raster at all falls through the whole
loop and receives the base raster's value (src/hrds/hrds.py lines 221-222). -/
theorem getval_uncontained_returns_base (h : HRDS) (p : Point)
    (hnone : ∀ r ∈ h.raster_stack, r.point_in p = false) :
    h.get_val p = h.baseRaster.get_val p := by
  rw [HRDS.get_val]
  exact get_val_go_none h.baseRaster h.raster_stack p _ 0
    (fun rb hrb => by
      obtain ⟨r, b⟩ := rb
      exact hnone r (List.of_mem_zip hrb).1)

/-- C10: whenever the first containing layer's buffer value `w` differs from
exactly 1.0 — also when `w` lies below 0 or above 1 — `get_val` uses `w`
unclamped in the blend `v1*w + v2*(1-w)`; an out-of-range `w` therefore
drives the result outside the interval spanned by the two raster values
(src/hrds/hrds.py lines 206-219). -/
theorem getval_blend_weight_unclamped (h : HRDS) (p : Point) (i : Nat)
    (hi : i < h.raster_stack.length) (hib : i < h.buffer_stack.length)
    (hc : h.raster_stack[i].point_in p = true)
    (hf : ∀ j (hj : j < i), h.raster_stack[j].point_in p = false)
    (hw : h.buffer_stack[i].get_val p ≠ 1) :
    h.get_val p =
      h.raster_stack[i].get_val p * h.buffer_stack[i].get_val p +
        (blendPartner h i p).get_val p * (1 - h.buffer_stack[i].get_val p) ∧
    ((h.buffer_stack[i].get_val p < 0 ∨ 1 < h.buffer_stack[i].get_val p) →
      h.raster_stack[i].get_val p ≠ (blendPartner h i p).get_val p →
      (h.get_val p < min (h.raster_stack[i].get_val p) ((blendPartner h i p).get_val p) ∨
        max (h.raster_stack[i].get_val p) ((blendPartner h i p).get_val p) < h.get_val p)) := by
  have hmain : h.get_val p =
      h.raster_stack[i].get_val p * h.buffer_stack[i].get_val p +
        (blendPartner h i p).get_val p * (1 - h.buffer_stack[i].get_val p) := by
    rw [get_val_first_layer h p i hi hib hc hf, layerResolve, if_neg hw, blendPartner]
    cases hfind : (h.raster_stack.drop (i + 1)).find? (fun rr => rr.point_in p) with
    | none => rfl
    | some rr => rfl
  refine ⟨hmain, ?_⟩
  intro hout hne
  set v₁ := h.raster_stack[i].get_val p with hv₁
  set v₂ := (blendPartner h i p).get_val p with hv₂
  set w := h.buffer_stack[i].get_val p with hwdef
  rw [hmain]
  rcases lt_or_gt_of_ne hne with hlt | hgt
  · rcases hout with hneg | hbig
    · right
      rw [max_eq_right (le_of_lt hlt)]
      nlinarith [mul_pos (neg_pos.mpr hneg) (sub_pos.mpr hlt)]
    · left
      rw [min_eq_left (le_of_lt hlt)]
      nlinarith [mul_pos (sub_pos.mpr hbig) (sub_pos.mpr hlt)]
  · rcases hout with hneg | hbig
    · left
      rw [min_eq_right (le_of_lt hgt)]
      nlinarith [mul_pos (neg_pos.mpr hneg) (sub_pos.mpr hgt)]
    · right
      rw [max_eq_left (le_of_lt hgt)]
      nlinarith [mul_pos (sub_pos.mpr hbig) (sub_pos.mpr hgt)]

/-- C9: the method `get_val` leaves every field of the stack object
unchanged and two successive calls at the same point return the same
value (src/hrds/hrds.py lines 183-222: the body performs no writes). -/
theorem getval_pure_and_repeatable (h : HRDS) (p : Point) :
    (h.get_val_method p).2 = h ∧
    (h.get_val_method p).1 = h.get_val p ∧
    ((h.get_val_method p).2.get_val_method p).1 = (h.get_val_method p).1 :=
  ⟨rfl, rfl, rfl⟩

/-- Concrete stack: two containing layers (values 5 and 7, buffers 1/2 and 1)
over a base valued 100. -/
def stackBlend : HRDS :=
  { baseRaster := mkLayer true 100,
    raster_stack := [mkLayer true 5, mkLayer true 7],
    buffer_stack := [mkLayer true (1/2), mkLayer true 1] }

theorem getval_blends_with_next_containing_layer_witness :
    stackBlend.get_val ptW = 6 := by
  have h := getval_blends_with_next_containing_layer stackBlend ptW 0
    (mkLayer true 7) (by decide) (by decide) rfl
    (fun j hj => absurd hj (Nat.not_lt_zero j))
    (by norm_num [show stackBlend.buffer_stack = [mkLayer true (1/2), mkLayer true 1] from rfl,
      mkLayer, RasterInterpolator.get_val])
    (by norm_num [show stackBlend.buffer_stack = [mkLayer true (1/2), mkLayer true 1] from rfl,
      mkLayer, RasterInterpolator.get_val])
    rfl
  rw [h]
  simp only [show stackBlend.raster_stack = [mkLayer true 5, mkLayer true 7] from rfl,
    show stackBlend.buffer_stack = [mkLayer true (1/2), mkLayer true 1] from rfl,
    List.getElem_cons_zero, mkLayer, RasterInterpolator.get_val]
  norm_num

/-- Concrete stack: the first containing layer has buffer exactly 1. -/
def stackAuthoritative : HRDS :=
  { baseRaster := mkLayer true 100,
    raster_stack := [mkLayer true 5, mkLayer true 7],
    buffer_stack := [mkLayer true 1, mkLayer true (1/4)] }

theorem getval_buffer_one_returns_layer_value_witness :
    stackAuthoritative.get_val ptW = 5 := by
  have h := getval_buffer_one_returns_layer_value stackAuthoritative ptW 0
    (by decide) (by decide) rfl
    (fun j hj => absurd hj (Nat.not_lt_zero j)) rfl
  rw [h]
  rfl

/-- Concrete stack: one containing layer (value 5, buffer 1/2), the other
layer misses the point, over a base valued 100. -/
def stackSole : HRDS :=
  { baseRaster := mkLayer true 100,
    raster_stack := [mkLayer true 5, mkLayer false 7],
    buffer_stack := [mkLayer true (1/2), mkLayer true 1] }

theorem getval_sole_layer_blends_with_base_witness :
    stackSole.get_val ptW = 105 / 2 := by
  have h := getval_sole_layer_blends_with_base stackSole ptW 0
    (by decide) (by decide) rfl
    (fun j hj hne => by
      match j, hj with
      | 0, _ => exact absurd rfl hne
      | 1, _ => rfl
      | n + 2, hj2 =>
        exact absurd hj2 (by rw [show stackSole.raster_stack.length = 2 from rfl]; omega))
    (by norm_num [show stackSole.buffer_stack = [mkLayer true (1/2), mkLayer true 1] from rfl,
      mkLayer, RasterInterpolator.get_val])
  rw [h]
  simp only [show stackSole.raster_stack = [mkLayer true 5, mkLayer false 7] from rfl,
    show stackSole.buffer_stack = [mkLayer true (1/2), mkLayer true 1] from rfl,
    show stackSole.baseRaster = mkLayer true 100 from rfl,
    List.getElem_cons_zero, mkLayer, RasterInterpolator.get_val]
  norm_num

/-- Concrete stack: no layer contains the point, base valued 100. -/
def stackMiss : HRDS :=
  { baseRaster := mkLayer true 100,
    raster_stack := [mkLayer false 5, mkLayer false 7],
    buffer_stack := [mkLayer true (1/2), mkLayer true 1] }

theorem getval_uncontained_returns_base_witness :
    stackMiss.get_val ptW = 100 := by
  have h := getval_uncontained_returns_base stackMiss ptW
    (fun r hr => by
      simp only [show stackMiss.raster_stack = [mkLayer false 5, mkLayer false 7] from rfl,
        List.mem_cons, List.not_mem_nil, or_false] at hr
      rcases hr with rfl | rfl <;> rfl)
  rw [h]
  rfl

/-- Concrete stack: the first containing layer has buffer value 2, outside
[0, 1]; the next containing layer holds 7. -/
def stackOverdrive : HRDS :=
  { baseRaster := mkLayer true 100,
    raster_stack := [mkLayer true 5, mkLayer true 7],
    buffer_stack := [mkLayer true 2, mkLayer true 1] }

theorem getval_blend_weight_unclamped_witness :
    stackOverdrive.get_val ptW = 3 ∧
      (stackOverdrive.get_val ptW < 5 ∨ 7 < stackOverdrive.get_val ptW) := by
  obtain ⟨h1, h2⟩ := getval_blend_weight_unclamped stackOverdrive ptW 0
    (by decide) (by decide) rfl
    (fun j hj => absurd hj (Nat.not_lt_zero j))
    (by norm_num [show stackOverdrive.buffer_stack = [mkLayer true 2, mkLayer true 1] from rfl,
      mkLayer, RasterInterpolator.get_val])
  simp only [show stackOverdrive.raster_stack = [mkLayer true 5, mkLayer true 7] from rfl,
    show stackOverdrive.buffer_stack = [mkLayer true 2, mkLayer true 1] from rfl,
    show blendPartner stackOverdrive 0 ptW = mkLayer true 7 from rfl,
    List.getElem_cons_zero, mkLayer, RasterInterpolator.get_val] at h1 h2
  have h3 := h2 (by norm_num) (by norm_num)
  rw [min_eq_left (by norm_num : (5 : ℚ) ≤ 7),
    max_eq_right (by norm_num : (5 : ℚ) ≤ 7)] at h3
  refine ⟨?_, h3⟩
  rw [h1]
  norm_num

/-- Zipping commutes with reversing two lists of equal length. -/
theorem zip_reverse_of_length_eq {α β : Type _} :
    ∀ (l₁ : List α) (l₂ : List β), l₁.length = l₂.length →
      l₁.reverse.zip l₂.reverse = (l₁.zip l₂).reverse
  | [], [], _ => rfl
  | [], b :: t₂, h => by simp at h
  | a :: t₁, [], h => by simp at h
  | a :: t₁, b :: t₂, h => by
    have hl : t₁.length = t₂.length := by simpa using h
    simp only [List.reverse_cons, List.zip_cons_cons]
    rw [List.zip_append (by simpa using hl), zip_reverse_of_length_eq t₁ t₂ hl]
    simp

/-- C6: any of the three count mismatches makes construction fail with the
HRDSError whose text names the supplied and the expected counts
(src/hrds/hrds.py lines 96-112).  The equations hold for every loading
collaborator `interp` and buffer generator `gen` and the error values do
not depend on them: the checks run before any raster file is opened. -/
theorem init_count_mismatch_raises
    (interp : RasterInterpolator → Option MinMax → RasterInterpolator)
    (gen : RasterInterpolator → ℚ → RasterInterpolator)
    (baseRaster : RasterInterpolator) (rasters : List RasterInterpolator)
    (distances : Option (List ℚ)) (buffers : Option (List RasterInterpolator))
    (minmax : Option (List MinMax)) :
    (∀ ds, distances = some ds → rasters.length ≠ ds.length →
      HRDS.init interp gen baseRaster rasters distances buffers minmax =
        Except.error (PyError.hrdsError (distanceCountMsg rasters.length ds.length))) ∧
    (∀ bs, distances = none → buffers = some bs → rasters.length ≠ bs.length →
      HRDS.init interp gen baseRaster rasters distances buffers minmax =
        Except.error (PyError.hrdsError (bufferCountMsg rasters.length bs.length))) ∧
    (∀ mm, minmax = some mm → rasters.length + 1 ≠ mm.length →
      (match distances, buffers with
        | some ds, _ => rasters.length = ds.length
        | none, some bs => rasters.length = bs.length
        | none, none => False) →
      HRDS.init interp gen baseRaster rasters distances buffers minmax =
        Except.error (PyError.hrdsError (minmaxCountMsg mm.length (rasters.length + 1)))) := by
  refine ⟨?_, ?_, ?_⟩
  · rintro ds rfl hne
    cases buffers <;> simp [HRDS.init, hne]
  · rintro bs rfl rfl hne
    simp [HRDS.init, hne]
  · rintro mm rfl hne hpass
    cases hd : distances with
    | none =>
      cases hb : buffers with
      | none => rw [hd, hb] at hpass; exact absurd hpass (by simp)
      | some bs =>
        rw [hd, hb] at hpass
        simp only at hpass
        rw [hpass] at hne
        simp [HRDS.init, hpass, checkMinmax, hne]
    | some ds =>
      rw [hd] at hpass
      simp only at hpass
      rw [hpass] at hne
      simp [HRDS.init, hpass, checkMinmax, hne]

theorem init_count_mismatch_raises_witness :
    HRDS.init RasterInterpolator.load genConst (mkLayer true 100) [mkLayer true 5]
        (some []) none none =
      Except.error (PyError.hrdsError (distanceCountMsg 1 0)) ∧
    HRDS.init RasterInterpolator.load genConst (mkLayer true 100) [mkLayer true 5]
        none (some []) none =
      Except.error (PyError.hrdsError (bufferCountMsg 1 0)) ∧
    HRDS.init RasterInterpolator.load genConst (mkLayer true 100) [mkLayer true 5]
        (some [4]) none (some []) =
      Except.error (PyError.hrdsError (minmaxCountMsg 0 2)) := by
  refine ⟨?_, ?_, ?_⟩
  · exact (init_count_mismatch_raises RasterInterpolator.load genConst (mkLayer true 100)
      [mkLayer true 5] (some []) none none).1 [] rfl (by decide)
  · exact (init_count_mismatch_raises RasterInterpolator.load genConst (mkLayer true 100)
      [mkLayer true 5] none (some []) none).2.1 [] rfl rfl (by decide)
  · exact (init_count_mismatch_raises RasterInterpolator.load genConst (mkLayer true 100)
      [mkLayer true 5] (some [4]) none (some [])).2.2 [] rfl (by decide) rfl

/-- C5 counterexample: supplying both `distances` and `buffers` (with the
rasters/distances counts matching) is not rejected — construction succeeds,
contradicting the claim that it fails with a configuration error
(src/hrds/hrds.py lines 96-105 check lengths only; line 126 branches
solely on `buffers is None`). -/
theorem exclusive_arguments_counterexample :
    HRDS.init RasterInterpolator.load genConst (mkLayer true 100) [mkLayer true 5]
        (some [9]) (some [mkLayer true 2]) none =
      Except.ok
        { baseRaster := mkLayer true 100,
          raster_stack := [mkLayer true 5],
          buffer_stack := [mkLayer true 2] } := rfl

/-- C5 amended: with neither `distances` nor `buffers`, construction fails,
but with the TypeError from `len(None)` rather than an HRDS configuration
error; with both given it is not rejected: when `len(rasters)` equals
`len(distances)` construction succeeds, and the `buffers` argument alone is
the basis of the buffer stack (the distances and the buffer generator are
ignored).  Only when exactly one is given does that argument alone drive
buffer building (src/hrds/hrds.py lines 96-105, 126-149). -/
theorem exclusive_arguments_amended
    (interp : RasterInterpolator → Option MinMax → RasterInterpolator)
    (gen : RasterInterpolator → ℚ → RasterInterpolator)
    (baseRaster : RasterInterpolator) (rasters : List RasterInterpolator)
    (ds : List ℚ) (bs : List RasterInterpolator) (minmax : Option (List MinMax)) :
    (HRDS.init interp gen baseRaster rasters none none minmax =
      Except.error (PyError.typeError ("object of type NoneType has no len()"))) ∧
    (rasters.length = ds.length →
      HRDS.init interp gen baseRaster rasters (some ds) (some bs) none =
        Except.ok (buildStack interp gen baseRaster rasters (some ds) (some bs) none)) ∧
    (buildStack interp gen baseRaster rasters (some ds) (some bs) none).buffer_stack =
      (bs.map (fun b => interp b none)).reverse := by
  refine ⟨rfl, ?_, rfl⟩
  intro hL
  simp [HRDS.init, hL, checkMinmax]

theorem exclusive_arguments_amended_witness :
    HRDS.init RasterInterpolator.load genConst (mkLayer true 100) [mkLayer true 7]
        (some [4]) (some [mkLayer true 3]) none =
      Except.ok (buildStack RasterInterpolator.load genConst (mkLayer true 100)
        [mkLayer true 7] (some [4]) (some [mkLayer true 3]) none) :=
  (exclusive_arguments_amended RasterInterpolator.load genConst (mkLayer true 100)
    [mkLayer true 7] [4] [mkLayer true 3] none).2.1 rfl

/-- C8 amended: after every successful construction both stacks are the
reversal of the input-order stacks (index 0 is highest priority); whenever
the buffer list that was used has the same length as the raster list —
automatic on the distances-only path and on the checked buffers-only path,
but violable when both distances and buffers are supplied together —
position `j` of the raster stack and of the buffer stack correspond to the
same original input raster (src/hrds/hrds.py lines 114-153). -/
theorem reversal_preserves_pairing_amended
    (interp : RasterInterpolator → Option MinMax → RasterInterpolator)
    (gen : RasterInterpolator → ℚ → RasterInterpolator)
    (baseRaster : RasterInterpolator) (rasters : List RasterInterpolator)
    (distances : Option (List ℚ)) (buffers : Option (List RasterInterpolator))
    (minmax : Option (List MinMax)) (h : HRDS)
    (hok : HRDS.init interp gen baseRaster rasters distances buffers minmax =
      Except.ok h) :
    h.raster_stack = (origRasterStack interp rasters minmax).reverse ∧
    h.buffer_stack = (origBufferStack interp gen rasters distances buffers).reverse ∧
    ((origRasterStack interp rasters minmax).length =
        (origBufferStack interp gen rasters distances buffers).length →
      h.raster_stack.zip h.buffer_stack =
        ((origRasterStack interp rasters minmax).zip
          (origBufferStack interp gen rasters distances buffers)).reverse) := by
  have hbuild : h = buildStack interp gen baseRaster rasters distances buffers minmax := by
    cases hd : distances with
    | none =>
      cases hb : buffers with
      | none => rw [hd, hb] at hok; simp [HRDS.init] at hok
      | some bs =>
        rw [hd, hb] at hok
        by_cases hL : rasters.length = bs.length
        · rw [HRDS.init, if_pos hL] at hok
          cases hcm : checkMinmax rasters.length minmax with
          | some e => rw [hcm] at hok; exact absurd hok (by simp)
          | none => rw [hcm] at hok; exact (Except.ok.inj hok).symm
        · simp [HRDS.init, hL] at hok
    | some ds =>
      rw [hd] at hok
      by_cases hL : rasters.length = ds.length
      · rw [HRDS.init, if_pos hL] at hok
        cases hcm : checkMinmax rasters.length minmax with
        | some e => rw [hcm] at hok; exact absurd hok (by simp)
        | none => rw [hcm] at hok; exact (Except.ok.inj hok).symm
      · simp [HRDS.init, hL] at hok
  subst hbuild
  refine ⟨rfl, rfl, ?_⟩
  intro hlen
  exact zip_reverse_of_length_eq _ _ hlen

/-- The stack state of the successful buffers-only construction used to
instantiate the pairing result. -/
def buffersPathStack : HRDS :=
  { baseRaster := mkLayer true 100,
    raster_stack := [mkLayer true 5],
    buffer_stack := [mkLayer true 2] }

theorem reversal_preserves_pairing_amended_witness :
    buffersPathStack.raster_stack.zip buffersPathStack.buffer_stack =
      ((origRasterStack RasterInterpolator.load [mkLayer true 5] none).zip
        (origBufferStack RasterInterpolator.load genConst [mkLayer true 5] none
          (some [mkLayer true 2]))).reverse :=
  (reversal_preserves_pairing_amended RasterInterpolator.load genConst
    (mkLayer true 100) [mkLayer true 5] none (some [mkLayer true 2]) none
    buffersPathStack rfl).2.2 rfl

/-- The stack state of the successful construction that supplies one raster,
one distance, and two buffer files at once. -/
def bothGivenStack : HRDS :=
  { baseRaster := mkLayer true 100,
    raster_stack := [mkLayer true 5],
    buffer_stack := [mkLayer true 3, mkLayer true 2] }

/-- C8 counterexample: supplying both distances and buffers with two buffer
files but a single raster constructs successfully (src/hrds/hrds.py never
compares `len(buffers)` with `len(rasters)` when `distances` is given), and
afterwards position 0 of the raster stack is paired with the buffer
supplied for the nonexistent raster index 1 — the position-wise pairing
with the original input does not survive. -/
theorem reversal_preserves_pairing_counterexample :
    HRDS.init RasterInterpolator.load genConst (mkLayer true 100) [mkLayer true 5]
        (some [9]) (some [mkLayer true 2, mkLayer true 3]) none =
      Except.ok bothGivenStack ∧
    bothGivenStack.raster_stack.zip bothGivenStack.buffer_stack ≠
      ((origRasterStack RasterInterpolator.load [mkLayer true 5] none).zip
        (origBufferStack RasterInterpolator.load genConst [mkLayer true 5]
          (some [9]) (some [mkLayer true 2, mkLayer true 3]))).reverse := by
  refine ⟨rfl, ?_⟩
  intro hcontra
  have h2 := congrArg
    (fun l => ((l.headD (mkLayer true 0, mkLayer true 0)).2.sample 1 ptW)) hcontra
  have h3 : (3 : ℚ) = 2 := h2
  norm_num at h3

/-- C4: calling `set_bands` with an explicit band list always fails with an
AttributeError before selecting any band: the very first statement
`self.baseRaster.bands(bands[0])` (src/hrds/hrds.py line 174) names an
operation absent from the sampler interface (its band selector is
`set_band`, used on the default path and in the two loops), so element 0
never selects the base raster's band and the counter loops — which would
walk the internally reversed stacks — never run. -/
theorem set_bands_with_list_raises (h : HRDS) (bs : List Nat) :
    h.set_bands (some bs) =
      Except.error (PyError.attributeError
        ("RasterInterpolator object has no attribute bands")) := rfl
